import Mathlib

/-!
Shallow embedding of the CS330 repository: the `SceneManager` texture and
material registries with the draw-state matrix pipeline
(`src/SceneManager.cpp`), and the brick-breaker entities of
`src/8-2_Assignment/Source/MainCode.cpp`.

C++ `int` values are modelled as `Int`, `std::string` as `String`, and
`float` quantities as exact rationals (`ℚ`) or reals (`ℝ`) where the claims
speak up to floating-point tolerance.  OpenGL is modelled by the one piece of
driver state the registry observes: `glGenTextures` hands out fresh,
never-before-used texture names, embedded as a counter.
-/

namespace SceneMgr

/-- One entry of the fixed texture table: `TEXTURE_INFO { std::string tag; GLuint ID; }`. -/
structure TexSlot where
  tag : String
  ID : Int
  deriving Repr, DecidableEq

/-- The state of a `SceneManager` object that the texture operations touch:
the 16-slot array `m_textureIDs` (C++ indexes it without any bounds check, so
it is embedded as a total map from indices to slots), the slot counter
`m_loadedTextures`, and the GL driver name supply consumed by
`glGenTextures`. -/
structure SceneState where
  textureIDs : Nat → TexSlot
  m_loadedTextures : Nat
  glNextName : Int

/-- Constructor `SceneManager::SceneManager`: every slot of `m_textureIDs`
is initialised to tag `"/0"` and ID `-1`, and `m_loadedTextures` is zeroed.
GL texture names start at 1. -/
def initState : SceneState :=
  { textureIDs := fun _ => { tag := "/0", ID := -1 }
    m_loadedTextures := 0
    glNextName := 1 }

/-- `glGenTextures(1, &id)`: returns a fresh texture name and advances the
driver supply. -/
def glGenTexture (s : SceneState) : Int × SceneState :=
  (s.glNextName, { s with glNextName := s.glNextName + 1 })

/-- Result of `stbi_load`: `none` when the decode fails, otherwise the
width, height and channel count of the decoded image. -/
structure Image where
  width : Nat
  height : Nat
  colorChannels : Nat
  deriving Repr, DecidableEq

/-- `SceneManager::CreateGLTexture(filename, tag)`.  The file contents are
embedded as the decode result `image`.  On a successful decode a texture name
is generated; if the channel count is 3 or 4 the texture is uploaded and the
entry `{tag, ID}` is written at index `m_loadedTextures` (the C++ code makes
no capacity check against the 16-slot array) and the counter is incremented,
returning `true`; otherwise `false` is returned with the table untouched. -/
def CreateGLTexture (s : SceneState) (image : Option Image) (tag : String) :
    Bool × SceneState :=
  match image with
  | some img =>
    let p := glGenTexture s
    let textureID := p.1
    let s1 := p.2
    if img.colorChannels = 3 ∨ img.colorChannels = 4 then
      (true,
        { s1 with
          textureIDs := Function.update s1.textureIDs s1.m_loadedTextures
            { tag := tag, ID := textureID }
          m_loadedTextures := s1.m_loadedTextures + 1 })
    else
      (false, s1)
  | none => (false, s)

/-- `SceneManager::DestroyGLTextures`: for each populated slot the code calls
`glGenTextures(1, &m_textureIDs[i].ID)`, overwriting the stored handle with a
freshly generated texture name (it never calls `glDeleteTextures`). -/
def DestroyGLTextures (s : SceneState) : SceneState :=
  (List.range s.m_loadedTextures).foldl
    (fun st i =>
      let p := glGenTexture st
      { p.2 with
        textureIDs := Function.update p.2.textureIDs i
          { p.2.textureIDs i with ID := p.1 } })
    s

/-- The scanning loop of `SceneManager::FindTextureID`: walk indices from
`index` while slots remain (the while condition `index < count` is encoded
by recursing on the `count - index` remaining slots), returning the stored
ID at the first slot whose tag matches, and `-1` when the scan runs out. -/
def findTextureIDAux (table : Nat → TexSlot) (tag : String) (index : Nat) :
    Nat → Int
  | 0 => -1
  | remaining + 1 =>
    if (table index).tag = tag then (table index).ID
    else findTextureIDAux table tag (index + 1) remaining

/-- `SceneManager::FindTextureID(tag)`: linear scan of the populated slots,
`-1` when absent. -/
def FindTextureID (s : SceneState) (tag : String) : Int :=
  findTextureIDAux s.textureIDs tag 0 s.m_loadedTextures

/-- The scanning loop of `SceneManager::FindTextureSlot`: as
`findTextureIDAux` but returning the matching index itself. -/
def findTextureSlotAux (table : Nat → TexSlot) (tag : String) (index : Nat) :
    Nat → Int
  | 0 => -1
  | remaining + 1 =>
    if (table index).tag = tag then (index : Int)
    else findTextureSlotAux table tag (index + 1) remaining

/-- `SceneManager::FindTextureSlot(tag)`: linear scan of the populated slots,
`-1` when absent. -/
def FindTextureSlot (s : SceneState) (tag : String) : Int :=
  findTextureSlotAux s.textureIDs tag 0 s.m_loadedTextures

/-- `OBJECT_MATERIAL`: diffuse colour, specular colour, shininess and tag.
Colour components and shininess are C++ floats, embedded as rationals. -/
structure OBJECT_MATERIAL where
  diffuseColor : ℚ × ℚ × ℚ
  specularColor : ℚ × ℚ × ℚ
  shininess : ℚ
  tag : String
  deriving Repr, DecidableEq

/-- The scanning loop of `SceneManager::FindMaterial`: walk the material
list from the front (the index-based while loop visits the vector elements
in order); at the first tag match copy the diffuse colour, specular colour
and shininess fields into the reference parameter `material` (its tag field
is not written) and stop; when the loop runs out `material` is left as it
was. -/
def findMaterialAux (tag : String) (material : OBJECT_MATERIAL) :
    List OBJECT_MATERIAL → OBJECT_MATERIAL
  | [] => material
  | m :: rest =>
    if m.tag = tag then
      { material with
        diffuseColor := m.diffuseColor
        specularColor := m.specularColor
        shininess := m.shininess }
    else findMaterialAux tag material rest

/-- `SceneManager::FindMaterial(tag, material)`: returns `false` when the
material list is empty; otherwise it runs the scanning loop and then returns
`true` unconditionally — the loop flag `bFound` is never consulted for the
return value.  The pair is the returned Bool together with the final value of
the by-reference `material` argument. -/
def FindMaterial (ms : List OBJECT_MATERIAL) (tag : String)
    (material : OBJECT_MATERIAL) : Bool × OBJECT_MATERIAL :=
  if ms.length = 0 then (false, material)
  else (true, findMaterialAux tag material ms)

/-- A uniform write pushed to the shader sink by `SetShaderMaterial`. -/
inductive UniformWrite where
  | vec3 (name : String) (v : ℚ × ℚ × ℚ)
  | float (name : String) (v : ℚ)
  deriving Repr, DecidableEq

/-- `SceneManager::SetShaderMaterial(materialTag)`: when the material list is
non-empty, a local `OBJECT_MATERIAL material` is declared uninitialised
(embedded as the arbitrary value `material0`), `FindMaterial` fills it, and
when `FindMaterial` returned `true` the three material uniforms are pushed
from whatever `material` now holds.  The result is the list of uniform
writes issued. -/
def SetShaderMaterial (ms : List OBJECT_MATERIAL) (materialTag : String)
    (material0 : OBJECT_MATERIAL) : List UniformWrite :=
  if ms.length > 0 then
    let r := FindMaterial ms materialTag material0
    if r.1 = true then
      [UniformWrite.vec3 "material.diffuseColor" r.2.diffuseColor,
       UniformWrite.vec3 "material.specularColor" r.2.specularColor,
       UniformWrite.float "material.shininess" r.2.shininess]
    else []
  else []

/-- A decode result `CreateGLTexture` accepts: 3 (RGB) or 4 (RGBA) channels. -/
def validImg (im : Image) : Prop :=
  im.colorChannels = 3 ∨ im.colorChannels = 4

/-- A failed load as the claims describe it: either the decode failed
(`stbi_load` returned null) or the channel count is neither 3 nor 4. -/
def badImage : Option Image → Prop
  | none => True
  | some im => im.colorChannels ≠ 3 ∧ im.colorChannels ≠ 4

/-- A sequence of `CreateGLTexture` calls, one per (decoded image, tag)
pair, keeping only the evolving state (the caller in the source ignores the
returned Bool). -/
def registerAll (l : List (Image × String)) (s : SceneState) : SceneState :=
  l.foldl (fun st pr => (CreateGLTexture st (some pr.1) pr.2).2) s

/-- A 4x4 RGB decode result. -/
def demoImg3 : Image := { width := 4, height := 4, colorChannels := 3 }

/-- A 4x4 two-channel decode result (unsupported by `CreateGLTexture`). -/
def demoImg2 : Image := { width := 4, height := 4, colorChannels := 2 }

/-- 16 successful registrations with pairwise distinct tags, filling the
fixed 16-slot table. -/
def demoRegs16 : List (Image × String) :=
  (List.range 16).map (fun k => (demoImg3, "slot" ++ toString k))

/-- The scene-manager state after the 16 registrations of `demoRegs16`. -/
def fullState : SceneState := registerAll demoRegs16 initState

/-- The state after one successful registration under tag `"ground"`. -/
def groundState : SceneState := registerAll [(demoImg3, "ground")] initState

/-- The wood material defined by `DefineObjectMaterials` (diffuse
(0.2, 0.2, 0.2), specular (0, 0, 0), shininess 0.1, tag "tree"). -/
def woodMaterial : OBJECT_MATERIAL :=
  { diffuseColor := (2/10, 2/10, 2/10), specularColor := (0, 0, 0),
    shininess := 1/10, tag := "tree" }

/-- A stand-in for the indeterminate contents of the uninitialised local
`OBJECT_MATERIAL material` declared by `SetShaderMaterial`. -/
def staleMaterial : OBJECT_MATERIAL :=
  { diffuseColor := (7/10, 8/10, 9/10), specularColor := (2/5, 3/5, 4/5),
    shininess := 33, tag := "stale" }

/-- First material of a duplicate-tag pair. -/
def dupMatA : OBJECT_MATERIAL :=
  { diffuseColor := (1/4, 1/4, 1/4), specularColor := (1/2, 1/2, 1/2),
    shininess := 2, tag := "metal" }

/-- Second material sharing the tag of `dupMatA` with different fields. -/
def dupMatB : OBJECT_MATERIAL :=
  { diffuseColor := (9/10, 9/10, 9/10), specularColor := (1, 1, 1),
    shininess := 64, tag := "metal" }

end SceneMgr

namespace Xform

open Matrix Real

/-- `glm::radians`: degrees to radians. -/
noncomputable def radians (d : ℝ) : ℝ := d * (Real.pi / 180)

/-- `glm::scale(v)`: homogeneous 4x4 scaling matrix. -/
noncomputable def scaleM (v : ℝ × ℝ × ℝ) : Matrix (Fin 4) (Fin 4) ℝ :=
  !![v.1, 0, 0, 0; 0, v.2.1, 0, 0; 0, 0, v.2.2, 0; 0, 0, 0, 1]

/-- `glm::rotate(angle, vec3(1,0,0))`: rotation about the x axis. -/
noncomputable def rotationXM (θ : ℝ) : Matrix (Fin 4) (Fin 4) ℝ :=
  !![1, 0, 0, 0;
     0, Real.cos θ, -Real.sin θ, 0;
     0, Real.sin θ, Real.cos θ, 0;
     0, 0, 0, 1]

/-- `glm::rotate(angle, vec3(0,1,0))`: rotation about the y axis. -/
noncomputable def rotationYM (θ : ℝ) : Matrix (Fin 4) (Fin 4) ℝ :=
  !![Real.cos θ, 0, Real.sin θ, 0;
     0, 1, 0, 0;
     -Real.sin θ, 0, Real.cos θ, 0;
     0, 0, 0, 1]

/-- `glm::rotate(angle, vec3(0,0,1))`: rotation about the z axis. -/
noncomputable def rotationZM (θ : ℝ) : Matrix (Fin 4) (Fin 4) ℝ :=
  !![Real.cos θ, -Real.sin θ, 0, 0;
     Real.sin θ, Real.cos θ, 0, 0;
     0, 0, 1, 0;
     0, 0, 0, 1]

/-- `glm::translate(t)`: homogeneous translation matrix. -/
noncomputable def translateM (t : ℝ × ℝ × ℝ) : Matrix (Fin 4) (Fin 4) ℝ :=
  !![1, 0, 0, t.1;
     0, 1, 0, t.2.1;
     0, 0, 1, t.2.2;
     0, 0, 0, 1]

/-- `SceneManager::SetTransformations(scaleXYZ, Xrot, Yrot, Zrot, positionXYZ)`:
the model matrix pushed to the shader, computed as
`translation * rotationZ * rotationY * rotationX * scale` with the rotation
angles converted from degrees to radians. -/
noncomputable def SetTransformations (scaleXYZ : ℝ × ℝ × ℝ)
    (XrotationDegrees YrotationDegrees ZrotationDegrees : ℝ)
    (positionXYZ : ℝ × ℝ × ℝ) : Matrix (Fin 4) (Fin 4) ℝ :=
  translateM positionXYZ *
    rotationZM (radians ZrotationDegrees) *
    rotationYM (radians YrotationDegrees) *
    rotationXM (radians XrotationDegrees) *
    scaleM scaleXYZ

/-- A 3D point as a homogeneous column vector with w-component 1. -/
noncomputable def hom (p : ℝ × ℝ × ℝ) : Fin 4 → ℝ := ![p.1, p.2.1, p.2.2, 1]

/-- Componentwise scaling of a point. -/
noncomputable def scalePt (s p : ℝ × ℝ × ℝ) : ℝ × ℝ × ℝ :=
  (s.1 * p.1, s.2.1 * p.2.1, s.2.2 * p.2.2)

/-- Rotation of a point about the x axis by angle θ. -/
noncomputable def rotXPt (θ : ℝ) (p : ℝ × ℝ × ℝ) : ℝ × ℝ × ℝ :=
  (p.1, Real.cos θ * p.2.1 - Real.sin θ * p.2.2,
   Real.sin θ * p.2.1 + Real.cos θ * p.2.2)

/-- Rotation of a point about the y axis by angle θ. -/
noncomputable def rotYPt (θ : ℝ) (p : ℝ × ℝ × ℝ) : ℝ × ℝ × ℝ :=
  (Real.cos θ * p.1 + Real.sin θ * p.2.2, p.2.1,
   -Real.sin θ * p.1 + Real.cos θ * p.2.2)

/-- Rotation of a point about the z axis by angle θ. -/
noncomputable def rotZPt (θ : ℝ) (p : ℝ × ℝ × ℝ) : ℝ × ℝ × ℝ :=
  (Real.cos θ * p.1 - Real.sin θ * p.2.1,
   Real.sin θ * p.1 + Real.cos θ * p.2.1, p.2.2)

/-- Translation of a point. -/
noncomputable def translatePt (t p : ℝ × ℝ × ℝ) : ℝ × ℝ × ℝ :=
  (t.1 + p.1, t.2.1 + p.2.1, t.2.2 + p.2.2)

end Xform

namespace BrickGame

/-- `enum BRICKTYPE { REFLECTIVE, DESTRUCTABLE }`. -/
inductive BRICKTYPE where
  | REFLECTIVE
  | DESTRUCTABLE
  deriving DecidableEq

/-- `enum ONOFF { ON, OFF }`. -/
inductive ONOFF where
  | ON
  | OFF
  deriving DecidableEq

/-- `class Brick`: colour, centre position, width, health, type and the
on-off flag.  `int health` is embedded as `Int`, float fields as `ℚ`. -/
structure Brick where
  red : ℚ
  green : ℚ
  blue : ℚ
  x : ℚ
  y : ℚ
  width : ℚ
  health : Int
  brick_type : BRICKTYPE
  onoff : ONOFF
  deriving DecidableEq

/-- `Brick::Brick(bt, xx, yy, ww, rr, gg, bb)`: stores the arguments and
initialises `onoff = ON` and `health = 10`. -/
def mkBrick (bt : BRICKTYPE) (xx yy ww rr gg bb : ℚ) : Brick :=
  { brick_type := bt, x := xx, y := yy, width := ww,
    red := rr, green := gg, blue := bb,
    onoff := ONOFF.ON, health := 10 }

/-- `class Circle`: colour, radius, position, speed (field initialiser
`0.01`), health, direction code 1..8 and on-off flag. -/
structure Circle where
  red : ℚ
  green : ℚ
  blue : ℚ
  radius : ℚ
  x : ℚ
  y : ℚ
  speed : ℚ
  health : Int
  direction : Int
  onoff : ONOFF
  deriving DecidableEq

/-- `Circle::Circle(xx, yy, rr, dir, rad, r, g, b)`: the constructor writes
`radius = rr` and then overwrites it with `radius = rad`, so the final radius
is `rad`; `onoff = ON`, `health = 2`, and `speed` keeps its field
initialiser `0.01`. -/
def mkCircle (xx yy rr : ℚ) (dir : Int) (rad r g b : ℚ) : Circle :=
  { x := xx, y := yy, radius := rad, red := r, green := g, blue := b,
    speed := 1 / 100, health := 2, direction := dir, onoff := ONOFF.ON }

/-- `Circle::CheckCollision(brk)`.  `rndDir` stands for the value returned
by the `GetRandomDirection()` call (`rand() % 8 + 1`) when one happens.  A
reflective brick in overlap redirects and nudges the circle; a destructable
brick additionally requires `brk->onoff == ON`, `brk->health > 0` and the
circle itself `ON`, and then decrements the brick health, switching the
brick `OFF` in the same call when the health reaches 0.  Returns the updated
circle and brick. -/
def CheckCollision (c : Circle) (brk : Brick) (rndDir : Int) :
    Circle × Brick :=
  if brk.brick_type = BRICKTYPE.REFLECTIVE then
    if (c.x > brk.x - brk.width ∧ c.x ≤ brk.x + brk.width) ∧
        (c.y > brk.y - brk.width ∧ c.y ≤ brk.y + brk.width) then
      ({ c with direction := rndDir, x := c.x + 3 / 100, y := c.y + 4 / 100 },
       brk)
    else (c, brk)
  else if brk.brick_type = BRICKTYPE.DESTRUCTABLE ∧ brk.onoff = ONOFF.ON ∧
      brk.health > 0 ∧ c.onoff = ONOFF.ON then
    if (c.x > brk.x - brk.width ∧ c.x ≤ brk.x + brk.width) ∧
        (c.y > brk.y - brk.width ∧ c.y ≤ brk.y + brk.width) then
      ({ c with direction := rndDir, x := c.x + 3 / 100, y := c.y + 4 / 100 },
       { brk with
         health := brk.health - 1
         onoff := if brk.health - 1 ≤ 0 then ONOFF.OFF else brk.onoff })
    else (c, brk)
  else (c, brk)

/-- First block of `Circle::MoveOneStep` (directions 1, 5, 6): move down in
y while strictly inside the lower border, otherwise redraw the direction.
The `Nat` component counts how many random numbers have been consumed. -/
def moveStep1 (rnd : Nat → Int) (p : Circle × Nat) : Circle × Nat :=
  if p.1.direction = 1 ∨ p.1.direction = 5 ∨ p.1.direction = 6 then
    if p.1.y > -1 + p.1.radius then ({ p.1 with y := p.1.y - p.1.speed }, p.2)
    else ({ p.1 with direction := rnd p.2 }, p.2 + 1)
  else p

/-- Second block of `Circle::MoveOneStep` (directions 2, 5, 7): move right
in x while strictly inside the right border, otherwise redraw. -/
def moveStep2 (rnd : Nat → Int) (p : Circle × Nat) : Circle × Nat :=
  if p.1.direction = 2 ∨ p.1.direction = 5 ∨ p.1.direction = 7 then
    if p.1.x < 1 - p.1.radius then ({ p.1 with x := p.1.x + p.1.speed }, p.2)
    else ({ p.1 with direction := rnd p.2 }, p.2 + 1)
  else p

/-- Third block of `Circle::MoveOneStep` (directions 3, 7, 8): move up in y
while strictly inside the upper border, otherwise redraw. -/
def moveStep3 (rnd : Nat → Int) (p : Circle × Nat) : Circle × Nat :=
  if p.1.direction = 3 ∨ p.1.direction = 7 ∨ p.1.direction = 8 then
    if p.1.y < 1 - p.1.radius then ({ p.1 with y := p.1.y + p.1.speed }, p.2)
    else ({ p.1 with direction := rnd p.2 }, p.2 + 1)
  else p

/-- Fourth block of `Circle::MoveOneStep` (directions 4, 6, 8): move left in
x while strictly inside the left border, otherwise redraw. -/
def moveStep4 (rnd : Nat → Int) (p : Circle × Nat) : Circle × Nat :=
  if p.1.direction = 4 ∨ p.1.direction = 6 ∨ p.1.direction = 8 then
    if p.1.x > -1 + p.1.radius then ({ p.1 with x := p.1.x - p.1.speed }, p.2)
    else ({ p.1 with direction := rnd p.2 }, p.2 + 1)
  else p

/-- `Circle::MoveOneStep`: the four direction blocks run in order; a block
whose guard fails at the border redraws the direction, and the later blocks
test the redrawn direction.  `rnd k` is the value of the (k+1)-th
`GetRandomDirection()` call of this invocation. -/
def MoveOneStep (c : Circle) (rnd : Nat → Int) : Circle :=
  (moveStep4 rnd (moveStep3 rnd (moveStep2 rnd (moveStep1 rnd (c, 0))))).1

/-- The brick health invariant of claim C9: health never negative, and a
brick whose health has reached 0 is switched OFF. -/
def BrickInv (b : Brick) : Prop :=
  0 ≤ b.health ∧ (b.health ≤ 0 → b.onoff = ONOFF.OFF)

/-- The window bounds of claim C10: each coordinate within one step of the
border-stopping threshold for the circle radius. -/
def InWindow (c : Circle) : Prop :=
  -1 + c.radius - c.speed ≤ c.x ∧ c.x ≤ 1 - c.radius + c.speed ∧
  -1 + c.radius - c.speed ≤ c.y ∧ c.y ≤ 1 - c.radius + c.speed

/-- The circle spawned by `processInput` on the space key:
`Circle B(0, -0.8, 02, 3, 0.03, r, g, b)` with colour (1, 1, 1). -/
def demoCircle : Circle := mkCircle 0 (-8/10) 2 3 (3/100) 1 1 1

/-- The first brick of `main`:
`Brick brick(DESTRUCTABLE, 0.5, -0.33, 0.20, 1, 1, 0)`. -/
def demoBrick : Brick :=
  mkBrick BRICKTYPE.DESTRUCTABLE (5/10) (-33/100) (2/10) 1 1 0

end BrickGame

namespace SceneMgr

theorem CreateGLTexture_success (s : SceneState) (img : Image) (tag : String)
    (h : validImg img) :
    CreateGLTexture s (some img) tag =
      (true,
        { textureIDs := Function.update s.textureIDs s.m_loadedTextures
            { tag := tag, ID := s.glNextName }
          m_loadedTextures := s.m_loadedTextures + 1
          glNextName := s.glNextName + 1 }) := by
  rcases h with ht | ht <;> simp [CreateGLTexture, glGenTexture, ht]

theorem registerAll_cons (pr : Image × String) (l : List (Image × String))
    (s : SceneState) :
    registerAll (pr :: l) s = registerAll l (CreateGLTexture s (some pr.1) pr.2).2 :=
  rfl

theorem registerAll_counts (l : List (Image × String)) :
    ∀ s : SceneState, (∀ pr ∈ l, validImg pr.1) →
      (registerAll l s).m_loadedTextures = s.m_loadedTextures + l.length ∧
      (registerAll l s).glNextName = s.glNextName + l.length := by
  induction l with
  | nil => intro s _; exact ⟨by simp [registerAll], by simp [registerAll]⟩
  | cons pr rest ih =>
    intro s hval
    rw [registerAll_cons,
      CreateGLTexture_success s pr.1 pr.2 (hval pr (List.mem_cons_self _ _))]
    obtain ⟨h1, h2⟩ := ih _ (fun q hq => hval q (List.mem_cons_of_mem _ hq))
    refine ⟨by rw [h1]; simp; omega, by rw [h2]; simp; omega⟩

theorem registerAll_table_lt (l : List (Image × String)) :
    ∀ (s : SceneState) (j : Nat), (∀ pr ∈ l, validImg pr.1) →
      j < s.m_loadedTextures →
      (registerAll l s).textureIDs j = s.textureIDs j := by
  induction l with
  | nil => intro s j _ _; rfl
  | cons pr rest ih =>
    intro s j hval hj
    rw [registerAll_cons,
      CreateGLTexture_success s pr.1 pr.2 (hval pr (List.mem_cons_self _ _))]
    rw [ih _ j (fun q hq => hval q (List.mem_cons_of_mem _ hq)) (by simpa using Nat.lt_succ_of_lt hj)]
    exact Function.update_noteq (Nat.ne_of_lt hj) _ _

theorem registerAll_table_get (l : List (Image × String)) :
    ∀ (s : SceneState) (k : Nat) (hk : k < l.length),
      (∀ pr ∈ l, validImg pr.1) →
      (registerAll l s).textureIDs (s.m_loadedTextures + k) =
        { tag := (l.get ⟨k, hk⟩).2, ID := s.glNextName + k } := by
  induction l with
  | nil => intro s k hk _; simp at hk
  | cons pr rest ih =>
    intro s k hk hval
    rw [registerAll_cons,
      CreateGLTexture_success s pr.1 pr.2 (hval pr (List.mem_cons_self _ _))]
    cases k with
    | zero =>
      rw [registerAll_table_lt rest _ _
        (fun q hq => hval q (List.mem_cons_of_mem _ hq)) (by simp)]
      simp [Function.update_same]
    | succ k2 =>
      have hk2 : k2 < rest.length := by simpa using Nat.lt_of_succ_lt_succ hk
      have harith : s.m_loadedTextures + (k2 + 1) = (s.m_loadedTextures + 1) + k2 := by omega
      rw [harith, ih _ k2 hk2 (fun q hq => hval q (List.mem_cons_of_mem _ hq))]
      simp
      omega

end SceneMgr

namespace SceneMgr

theorem findTextureSlotAux_hit :
    ∀ (f i j : Nat) (table : Nat → TexSlot) (tag : String),
      i ≤ j → j < i + f → (table j).tag = tag →
      (∀ k, i ≤ k → k < j → (table k).tag ≠ tag) →
      findTextureSlotAux table tag i f = (j : Int) := by
  intro f
  induction f with
  | zero => intro i j _ _ hij hjf; omega
  | succ f ih =>
    intro i j table tag hij hjf hmatch hbefore
    by_cases hji : j = i
    · subst hji
      simp [findTextureSlotAux, hmatch]
    · have hii : (table i).tag ≠ tag := hbefore i le_rfl (by omega)
      simp only [findTextureSlotAux, if_neg hii]
      exact ih (i + 1) j table tag (by omega) (by omega) hmatch
        (fun k hk1 hk2 => hbefore k (by omega) hk2)

theorem findTextureIDAux_hit :
    ∀ (f i j : Nat) (table : Nat → TexSlot) (tag : String),
      i ≤ j → j < i + f → (table j).tag = tag →
      (∀ k, i ≤ k → k < j → (table k).tag ≠ tag) →
      findTextureIDAux table tag i f = (table j).ID := by
  intro f
  induction f with
  | zero => intro i j _ _ hij hjf; omega
  | succ f ih =>
    intro i j table tag hij hjf hmatch hbefore
    by_cases hji : j = i
    · subst hji
      simp [findTextureIDAux, hmatch]
    · have hii : (table i).tag ≠ tag := hbefore i le_rfl (by omega)
      simp only [findTextureIDAux, if_neg hii]
      exact ih (i + 1) j table tag (by omega) (by omega) hmatch
        (fun k hk1 hk2 => hbefore k (by omega) hk2)

theorem findMaterialAux_no_match (tag : String) (m0 : OBJECT_MATERIAL) :
    ∀ ms : List OBJECT_MATERIAL, (∀ m ∈ ms, m.tag ≠ tag) →
      findMaterialAux tag m0 ms = m0 := by
  intro ms
  induction ms with
  | nil => intro _; rfl
  | cons m rest ih =>
    intro habs
    simp only [findMaterialAux, if_neg (habs m (List.mem_cons_self _ _))]
    exact ih (fun q hq => habs q (List.mem_cons_of_mem _ hq))

theorem findMaterialAux_hit (tag : String) (m0 : OBJECT_MATERIAL) :
    ∀ (ms : List OBJECT_MATERIAL) (j : Nat) (hj : j < ms.length),
      (ms.get ⟨j, hj⟩).tag = tag →
      (∀ (k : Nat) (hk : k < ms.length), k < j → (ms.get ⟨k, hk⟩).tag ≠ tag) →
      findMaterialAux tag m0 ms =
        { m0 with
          diffuseColor := (ms.get ⟨j, hj⟩).diffuseColor
          specularColor := (ms.get ⟨j, hj⟩).specularColor
          shininess := (ms.get ⟨j, hj⟩).shininess } := by
  intro ms
  induction ms with
  | nil => intro j hj; simp at hj
  | cons m rest ih =>
    intro j hj hjtag hbefore
    cases j with
    | zero =>
      simp only [List.get] at hjtag ⊢
      simp [findMaterialAux, hjtag]
    | succ j2 =>
      have hm : m.tag ≠ tag := by
        have := hbefore 0 (by simp) (Nat.succ_pos j2)
        simpa using this
      simp only [findMaterialAux, if_neg hm]
      have hj2 : j2 < rest.length := by simpa using Nat.lt_of_succ_lt_succ hj
      rw [ih j2 hj2 (by simpa using hjtag)
        (fun k hk hkj => by
          have := hbefore (k + 1) (by simpa using Nat.succ_lt_succ hk)
            (Nat.succ_lt_succ hkj)
          simpa using this)]
      simp

end SceneMgr

namespace SceneMgr

theorem nodup_map_snd_ne {α β : Type} {l : List (α × β)}
    (h : (l.map Prod.snd).Nodup) (k i : Nat) (hk : k < l.length)
    (hi : i < l.length) (hki : k ≠ i) :
    (l.get ⟨k, hk⟩).2 ≠ (l.get ⟨i, hi⟩).2 := by
  intro heq
  have hk2 : k < (l.map Prod.snd).length := by simpa using hk
  have hi2 : i < (l.map Prod.snd).length := by simpa using hi
  have h1 : (l.map Prod.snd).get ⟨k, hk2⟩ = (l.map Prod.snd).get ⟨i, hi2⟩ := by
    simpa [List.get_map] using heq
  have h2 := (List.Nodup.get_inj_iff h).mp h1
  exact hki (by simpa using h2)

end SceneMgr

open SceneMgr

/-- C1 (code_bug evidence): `CreateGLTexture` has no capacity guard.  At the
state reached by 16 successful registrations (the table full), a further
call with a successfully decoded RGB image returns `true` — not failure —
and pushes the slot count to 17, writing the new entry past the 16-slot
array; the 16 prior entries are left as they were. -/
theorem C1_no_capacity_guard_eval :
    (CreateGLTexture fullState (some demoImg3) "overflow").1 = true ∧
    (CreateGLTexture fullState (some demoImg3) "overflow").2.m_loadedTextures = 17 ∧
    fullState.m_loadedTextures = 16 ∧
    (List.range 16).map
        (fun i => (CreateGLTexture fullState (some demoImg3) "overflow").2.textureIDs i)
      = (List.range 16).map (fun i => fullState.textureIDs i) := by
  decide

/-- C2 (code_bug evidence): on a non-empty material registry holding only
the tag "tree", `FindMaterial` with the absent tag "metal" returns `true`
(the source ends with an unconditional `return(true)`), leaving the output
material argument exactly as it was — the claimed not-found result `false`
is only produced for an empty registry. -/
theorem C2_absent_tag_returns_true_eval :
    FindMaterial [woodMaterial] "metal" staleMaterial = (true, staleMaterial) ∧
    FindMaterial [] "metal" staleMaterial = (false, staleMaterial) := by
  exact ⟨rfl, rfl⟩

/-- C3 (code_bug evidence): after one successful registration under tag
"ground" the stored handle is 1; `DestroyGLTextures` then calls
`glGenTextures` on the slot (instead of `glDeleteTextures`), overwriting the
handle with the next fresh texture name, so `FindTextureID "ground"` returns
2 — not the pre-release value 1 — while the tag and the slot count are left
unchanged. -/
theorem C3_destroy_regenerates_handles_eval :
    FindTextureID groundState "ground" = 1 ∧
    FindTextureID (DestroyGLTextures groundState) "ground" = 2 ∧
    (DestroyGLTextures groundState).m_loadedTextures = 1 ∧
    ((DestroyGLTextures groundState).textureIDs 0).tag = "ground" := by
  decide

/-- C5: for any sequence of successful registrations with pairwise distinct
tags, at most 16 of them, starting from a fresh `SceneManager`,
`FindTextureSlot` on the i-th tag returns the 0-based insertion index i and
`FindTextureID` returns the handle stored by that registration (which is
the (1+i)-th GL texture name). -/
theorem C5_register_lookup_roundtrip (l : List (Image × String))
    (hval : ∀ pr ∈ l, validImg pr.1)
    (hnodup : (l.map Prod.snd).Nodup)
    (hcap : l.length ≤ 16)
    (i : Nat) (hi : i < l.length) :
    FindTextureSlot (registerAll l initState) (l.get ⟨i, hi⟩).2 = (i : Int) ∧
    FindTextureID (registerAll l initState) (l.get ⟨i, hi⟩).2 =
      ((registerAll l initState).textureIDs i).ID ∧
    ((registerAll l initState).textureIDs i).ID = 1 + (i : Int) := by
  obtain ⟨hcount0, hgl⟩ := registerAll_counts l initState hval
  have hcount : (registerAll l initState).m_loadedTextures = l.length := by
    rw [hcount0]; simp [initState]
  have htab : ∀ (k : Nat) (hk : k < l.length),
      (registerAll l initState).textureIDs k =
        { tag := (l.get ⟨k, hk⟩).2, ID := 1 + (k : Int) } := by
    intro k hk
    have h := registerAll_table_get l initState k hk hval
    simpa [initState] using h
  have hdistinct : ∀ (k : Nat) (hk : k < l.length), k < i →
      (l.get ⟨k, hk⟩).2 ≠ (l.get ⟨i, hi⟩).2 := by
    intro k hk hki
    exact nodup_map_snd_ne hnodup k i hk hi (Nat.ne_of_lt hki)
  have hbefore : ∀ k, 0 ≤ k → k < i →
      ((registerAll l initState).textureIDs k).tag ≠ (l.get ⟨i, hi⟩).2 := by
    intro k _ hki
    rw [htab k (by omega)]
    exact hdistinct k (by omega) hki
  have hiMatch : ((registerAll l initState).textureIDs i).tag = (l.get ⟨i, hi⟩).2 := by
    rw [htab i hi]
  refine ⟨?_, ?_, ?_⟩
  · unfold FindTextureSlot
    exact findTextureSlotAux_hit _ 0 i _ _ (Nat.zero_le i)
      (by rw [hcount]; omega) hiMatch hbefore
  · unfold FindTextureID
    exact findTextureIDAux_hit _ 0 i _ _ (Nat.zero_le i)
      (by rw [hcount]; omega) hiMatch hbefore
  · rw [htab i hi]

/-- C5 witness: registering "ground" then "snow" from a fresh manager,
the second tag is found at slot 1 with handle 2. -/
theorem C5_register_lookup_roundtrip_witness :
    FindTextureSlot (registerAll [(demoImg3, "ground"), (demoImg3, "snow")] initState) "snow" = 1 ∧
    FindTextureID (registerAll [(demoImg3, "ground"), (demoImg3, "snow")] initState) "snow" =
      ((registerAll [(demoImg3, "ground"), (demoImg3, "snow")] initState).textureIDs 1).ID ∧
    ((registerAll [(demoImg3, "ground"), (demoImg3, "snow")] initState).textureIDs 1).ID = 2 :=
  C5_register_lookup_roundtrip [(demoImg3, "ground"), (demoImg3, "snow")]
    (by simp [validImg, demoImg3]) (by decide) (by decide) 1 (by decide)

/-- C6: when the decode fails or the decoded channel count is neither 3 nor
4, `CreateGLTexture` returns `false` and the texture table — every slot and
the loaded-texture count — is exactly as before the call. -/
theorem C6_failed_load_leaves_table (s : SceneState) (image : Option Image)
    (tag : String) (h : badImage image) :
    (CreateGLTexture s image tag).1 = false ∧
    (CreateGLTexture s image tag).2.textureIDs = s.textureIDs ∧
    (CreateGLTexture s image tag).2.m_loadedTextures = s.m_loadedTextures := by
  cases image with
  | none => exact ⟨rfl, rfl, rfl⟩
  | some im =>
    obtain ⟨h3, h4⟩ := h
    have hcond : ¬ (im.colorChannels = 3 ∨ im.colorChannels = 4) := by
      rintro (hh | hh)
      · exact h3 hh
      · exact h4 hh
    refine ⟨?_, ?_, ?_⟩ <;> simp [CreateGLTexture, glGenTexture, hcond]

/-- C6 witness: a 2-channel decode on a fresh manager fails and mutates
nothing in the table. -/
theorem C6_failed_load_leaves_table_witness :
    (CreateGLTexture initState (some demoImg2) "x").1 = false ∧
    (CreateGLTexture initState (some demoImg2) "x").2.textureIDs = initState.textureIDs ∧
    (CreateGLTexture initState (some demoImg2) "x").2.m_loadedTextures = initState.m_loadedTextures :=
  C6_failed_load_leaves_table initState (some demoImg2) "x" ⟨by decide, by decide⟩

/-- C7: when two or more materials share a tag, `FindMaterial` on that tag
copies the diffuse colour, specular colour and shininess of the
first-inserted (lowest-index) matching material into the output argument;
later duplicates are never returned. -/
theorem C7_first_match_wins (ms : List OBJECT_MATERIAL) (tag : String)
    (m0 : OBJECT_MATERIAL) (j : Nat) (hj : j < ms.length)
    (hdup : ∃ (j2 : Nat) (hj2 : j2 < ms.length), j2 ≠ j ∧ (ms.get ⟨j2, hj2⟩).tag = tag)
    (hjtag : (ms.get ⟨j, hj⟩).tag = tag)
    (hfirst : ∀ (k : Nat) (hk : k < ms.length), k < j → (ms.get ⟨k, hk⟩).tag ≠ tag) :
    FindMaterial ms tag m0 =
      (true,
        { m0 with
          diffuseColor := (ms.get ⟨j, hj⟩).diffuseColor
          specularColor := (ms.get ⟨j, hj⟩).specularColor
          shininess := (ms.get ⟨j, hj⟩).shininess }) := by
  unfold FindMaterial
  rw [if_neg (by omega : ¬ ms.length = 0)]
  rw [findMaterialAux_hit tag m0 ms j hj hjtag hfirst]

/-- C7 witness: with two materials both tagged "metal", lookup returns the
fields of the first one. -/
theorem C7_first_match_wins_witness :
    FindMaterial [dupMatA, dupMatB] "metal" staleMaterial =
      (true,
        { staleMaterial with
          diffuseColor := dupMatA.diffuseColor
          specularColor := dupMatA.specularColor
          shininess := dupMatA.shininess }) :=
  C7_first_match_wins [dupMatA, dupMatB] "metal" staleMaterial 0 (by decide)
    ⟨1, by decide, by decide, rfl⟩ rfl
    (fun k hk hk0 => absurd hk0 (Nat.not_lt_zero k))

/-- C8: on a non-empty registry, looking up a tag that matches no entry
returns `true` with the caller's output material untouched, and
`SetShaderMaterial` consequently pushes the three material uniforms from
whatever the uninitialised local material happened to hold. -/
theorem C8_absent_tag_pushes_stale (ms : List OBJECT_MATERIAL) (tag : String)
    (m0 : OBJECT_MATERIAL) (hne : ms ≠ []) (habs : ∀ m ∈ ms, m.tag ≠ tag) :
    FindMaterial ms tag m0 = (true, m0) ∧
    SetShaderMaterial ms tag m0 =
      [UniformWrite.vec3 "material.diffuseColor" m0.diffuseColor,
       UniformWrite.vec3 "material.specularColor" m0.specularColor,
       UniformWrite.float "material.shininess" m0.shininess] := by
  have hlen : ¬ ms.length = 0 := fun h0 => hne (List.length_eq_zero.mp h0)
  have haux := findMaterialAux_no_match tag m0 ms habs
  have hfind : FindMaterial ms tag m0 = (true, m0) := by
    unfold FindMaterial
    rw [if_neg hlen, haux]
  refine ⟨hfind, ?_⟩
  unfold SetShaderMaterial
  rw [if_pos (Nat.pos_of_ne_zero hlen)]
  simp [hfind]

/-- C8 witness: registry ["tree"], lookup "metal": true is returned and the
stale local values are pushed. -/
theorem C8_absent_tag_pushes_stale_witness :
    FindMaterial [woodMaterial] "metal" staleMaterial = (true, staleMaterial) ∧
    SetShaderMaterial [woodMaterial] "metal" staleMaterial =
      [UniformWrite.vec3 "material.diffuseColor" staleMaterial.diffuseColor,
       UniformWrite.vec3 "material.specularColor" staleMaterial.specularColor,
       UniformWrite.float "material.shininess" staleMaterial.shininess] :=
  C8_absent_tag_pushes_stale [woodMaterial] "metal" staleMaterial
    (by simp) (by decide)

namespace Xform

theorem scaleM_mulVec (s p : ℝ × ℝ × ℝ) :
    (scaleM s).mulVec (hom p) = hom (scalePt s p) := by
  funext i
  fin_cases i <;>
    simp [scaleM, hom, scalePt, Matrix.mulVec, Matrix.dotProduct,
      Fin.sum_univ_four]

theorem rotationXM_mulVec (θ : ℝ) (p : ℝ × ℝ × ℝ) :
    (rotationXM θ).mulVec (hom p) = hom (rotXPt θ p) := by
  funext i
  fin_cases i <;>
    simp [rotationXM, hom, rotXPt, Matrix.mulVec, Matrix.dotProduct,
      Fin.sum_univ_four, sub_eq_add_neg]

theorem rotationYM_mulVec (θ : ℝ) (p : ℝ × ℝ × ℝ) :
    (rotationYM θ).mulVec (hom p) = hom (rotYPt θ p) := by
  funext i
  fin_cases i <;>
    simp [rotationYM, hom, rotYPt, Matrix.mulVec, Matrix.dotProduct,
      Fin.sum_univ_four]

theorem rotationZM_mulVec (θ : ℝ) (p : ℝ × ℝ × ℝ) :
    (rotationZM θ).mulVec (hom p) = hom (rotZPt θ p) := by
  funext i
  fin_cases i <;>
    simp [rotationZM, hom, rotZPt, Matrix.mulVec, Matrix.dotProduct,
      Fin.sum_univ_four, sub_eq_add_neg]

theorem translateM_mulVec (t p : ℝ × ℝ × ℝ) :
    (translateM t).mulVec (hom p) = hom (translatePt t p) := by
  funext i
  fin_cases i <;>
    simp [translateM, hom, translatePt, Matrix.mulVec, Matrix.dotProduct,
      Fin.sum_univ_four] <;> ring

theorem modelView_action (s : ℝ × ℝ × ℝ) (xr yr zr : ℝ) (t p : ℝ × ℝ × ℝ) :
    (SetTransformations s xr yr zr t).mulVec (hom p) =
      hom (translatePt t (rotZPt (radians zr) (rotYPt (radians yr)
        (rotXPt (radians xr) (scalePt s p))))) := by
  unfold SetTransformations
  rw [← Matrix.mulVec_mulVec, ← Matrix.mulVec_mulVec, ← Matrix.mulVec_mulVec,
    ← Matrix.mulVec_mulVec, scaleM_mulVec, rotationXM_mulVec,
    rotationYM_mulVec, rotationZM_mulVec, translateM_mulVec]

theorem radians_zero : radians 0 = 0 := by
  simp [radians]

theorem radians_ninety : radians 90 = Real.pi / 2 := by
  unfold radians; ring

end Xform

open Xform

/-- C4 (amended): `SetTransformations` composes the model matrix as
`translation * rotationZ * rotationY * rotationX * scale`, so a point is
scaled first, then rotated about X, then Y, then Z, then translated; at the
claimed concrete input — scale (2,1,1), rotation (0,0,90°), translation
(1,0,0) — the object-space point (1,0,0) is mapped to world-space (1,2,0):
the x-scale 2 sends it to (2,0,0), the 90° z-rotation to (0,2,0) and the
translation to (1,2,0). -/
theorem C4_model_matrix_composition :
    (∀ (s : ℝ × ℝ × ℝ) (xr yr zr : ℝ) (t p : ℝ × ℝ × ℝ),
      (SetTransformations s xr yr zr t).mulVec (hom p) =
        hom (translatePt t (rotZPt (radians zr) (rotYPt (radians yr)
          (rotXPt (radians xr) (scalePt s p)))))) ∧
    (SetTransformations (2, 1, 1) 0 0 90 (1, 0, 0)).mulVec (hom (1, 0, 0)) =
      hom (1, 2, 0) := by
  refine ⟨modelView_action, ?_⟩
  rw [modelView_action, radians_zero, radians_ninety]
  simp [scalePt, rotXPt, rotYPt, rotZPt, translatePt, Real.cos_pi_div_two,
    Real.sin_pi_div_two]

/-- C4 counterexample: at scale (2,1,1), rotation (0,0,90°), translation
(1,0,0), the model matrix does NOT map (1,0,0) to the claimed (1,1,0) — the
y-component of the image is 2, not 1 (exactly, in the real-number
idealisation of the float arithmetic, so far beyond any float tolerance). -/
theorem C4_claimed_image_refuted :
    (SetTransformations (2, 1, 1) 0 0 90 (1, 0, 0)).mulVec (hom (1, 0, 0)) ≠
      hom (1, 1, 0) := by
  rw [modelView_action, radians_zero, radians_ninety]
  intro h
  have h1 := congrFun h 1
  simp [scalePt, rotXPt, rotYPt, rotZPt, translatePt, Real.cos_pi_div_two,
    Real.sin_pi_div_two, hom] at h1

namespace BrickGame

theorem moveStep1_spec (rnd : Nat → Int) (p : Circle × Nat) :
    (moveStep1 rnd p).1.x = p.1.x ∧
    (moveStep1 rnd p).1.radius = p.1.radius ∧
    (moveStep1 rnd p).1.speed = p.1.speed ∧
    ((moveStep1 rnd p).1.y = p.1.y ∨
      ((moveStep1 rnd p).1.y = p.1.y - p.1.speed ∧ p.1.y > -1 + p.1.radius)) := by
  unfold moveStep1
  split_ifs with h1 h2 <;> refine ⟨rfl, rfl, rfl, ?_⟩
  · exact Or.inr ⟨rfl, h2⟩
  · exact Or.inl rfl
  · exact Or.inl rfl

theorem moveStep2_spec (rnd : Nat → Int) (p : Circle × Nat) :
    (moveStep2 rnd p).1.y = p.1.y ∧
    (moveStep2 rnd p).1.radius = p.1.radius ∧
    (moveStep2 rnd p).1.speed = p.1.speed ∧
    ((moveStep2 rnd p).1.x = p.1.x ∨
      ((moveStep2 rnd p).1.x = p.1.x + p.1.speed ∧ p.1.x < 1 - p.1.radius)) := by
  unfold moveStep2
  split_ifs with h1 h2 <;> refine ⟨rfl, rfl, rfl, ?_⟩
  · exact Or.inr ⟨rfl, h2⟩
  · exact Or.inl rfl
  · exact Or.inl rfl

theorem moveStep3_spec (rnd : Nat → Int) (p : Circle × Nat) :
    (moveStep3 rnd p).1.x = p.1.x ∧
    (moveStep3 rnd p).1.radius = p.1.radius ∧
    (moveStep3 rnd p).1.speed = p.1.speed ∧
    ((moveStep3 rnd p).1.y = p.1.y ∨
      ((moveStep3 rnd p).1.y = p.1.y + p.1.speed ∧ p.1.y < 1 - p.1.radius)) := by
  unfold moveStep3
  split_ifs with h1 h2 <;> refine ⟨rfl, rfl, rfl, ?_⟩
  · exact Or.inr ⟨rfl, h2⟩
  · exact Or.inl rfl
  · exact Or.inl rfl

theorem moveStep4_spec (rnd : Nat → Int) (p : Circle × Nat) :
    (moveStep4 rnd p).1.y = p.1.y ∧
    (moveStep4 rnd p).1.radius = p.1.radius ∧
    (moveStep4 rnd p).1.speed = p.1.speed ∧
    ((moveStep4 rnd p).1.x = p.1.x ∨
      ((moveStep4 rnd p).1.x = p.1.x - p.1.speed ∧ p.1.x > -1 + p.1.radius)) := by
  unfold moveStep4
  split_ifs with h1 h2 <;> refine ⟨rfl, rfl, rfl, ?_⟩
  · exact Or.inr ⟨rfl, h2⟩
  · exact Or.inl rfl
  · exact Or.inl rfl

/-- C9: a brick as constructed by the program starts with health 10 and ON,
satisfying the invariant (health never negative, and exhausted bricks are
OFF); every `Circle::CheckCollision` call preserves the invariant, the
health is decremented only while the brick is ON with positive health, and
the brick is switched OFF in the same call in which its health reaches 0. -/
theorem C9_brick_health_invariant (bt : BRICKTYPE) (xx yy ww rr gg bb : ℚ)
    (c : Circle) (brk : Brick) (rndDir : Int) (hinv : BrickInv brk) :
    BrickInv (mkBrick bt xx yy ww rr gg bb) ∧
    BrickInv (CheckCollision c brk rndDir).2 ∧
    ((CheckCollision c brk rndDir).2.health ≠ brk.health →
      brk.onoff = ONOFF.ON ∧ 0 < brk.health ∧
      (CheckCollision c brk rndDir).2.health = brk.health - 1) := by
  obtain ⟨h0, h1⟩ := hinv
  refine ⟨⟨by norm_num [mkBrick], by intro h; norm_num [mkBrick] at h⟩, ?_⟩
  unfold CheckCollision BrickInv
  split_ifs with hA hB hC hD hE <;> dsimp only <;>
    first
      | exact ⟨⟨h0, h1⟩, fun h => absurd rfl h⟩
      | (obtain ⟨hT, hON, hPOS, hCON⟩ := hC
         refine ⟨⟨by omega, fun _ => rfl⟩, fun _ => ⟨hON, hPOS, rfl⟩⟩)
      | (obtain ⟨hT, hON, hPOS, hCON⟩ := hC
         refine ⟨⟨by omega, fun hh => absurd hh (by omega)⟩, fun _ => ⟨hON, hPOS, rfl⟩⟩)

/-- C9 witness: the spawned circle hitting the first destructable brick of
`main` decrements its health from 10 to 9 and preserves the invariant. -/
theorem C9_brick_health_invariant_witness :
    BrickInv (mkBrick BRICKTYPE.DESTRUCTABLE (5/10) (-33/100) (2/10) 1 1 0) ∧
    BrickInv (CheckCollision demoCircle demoBrick 4).2 ∧
    ((CheckCollision demoCircle demoBrick 4).2.health ≠ demoBrick.health →
      demoBrick.onoff = ONOFF.ON ∧ 0 < demoBrick.health ∧
      (CheckCollision demoCircle demoBrick 4).2.health = demoBrick.health - 1) :=
  C9_brick_health_invariant BRICKTYPE.DESTRUCTABLE (5/10) (-33/100) (2/10)
    1 1 0 demoCircle demoBrick 4 ⟨by decide, fun h => absurd h (by decide)⟩

set_option maxHeartbeats 1000000 in
/-- C10: for a circle with radius strictly between 0 and 1, speed 0.01, and
both coordinates within one step of the border-stopping thresholds,
`MoveOneStep` keeps the coordinates within those bounds; each coordinate
changes by at most one speed per call, moves right or up only when strictly
inside the corresponding border threshold, and moves left or down likewise,
whatever values the direction redraws produce. -/
theorem C10_move_one_step_window (c : Circle) (rnd : Nat → Int)
    (hr0 : 0 < c.radius) (hr1 : c.radius < 1) (hs : c.speed = 1/100)
    (hin : InWindow c) :
    (MoveOneStep c rnd).radius = c.radius ∧
    (MoveOneStep c rnd).speed = c.speed ∧
    InWindow (MoveOneStep c rnd) ∧
    c.x - c.speed ≤ (MoveOneStep c rnd).x ∧ (MoveOneStep c rnd).x ≤ c.x + c.speed ∧
    c.y - c.speed ≤ (MoveOneStep c rnd).y ∧ (MoveOneStep c rnd).y ≤ c.y + c.speed ∧
    ((MoveOneStep c rnd).x > c.x → c.x < 1 - c.radius) ∧
    ((MoveOneStep c rnd).x < c.x → c.x > -1 + c.radius) ∧
    ((MoveOneStep c rnd).y > c.y → c.y < 1 - c.radius) ∧
    ((MoveOneStep c rnd).y < c.y → c.y > -1 + c.radius) := by
  obtain ⟨hwx1, hwx2, hwy1, hwy2⟩ := hin
  unfold MoveOneStep InWindow
  obtain ⟨e1x, e1r, e1s, h1⟩ := moveStep1_spec rnd (c, 0)
  set p1 := moveStep1 rnd (c, 0) with hp1
  obtain ⟨e2y, e2r, e2s, h2⟩ := moveStep2_spec rnd p1
  set p2 := moveStep2 rnd p1 with hp2
  obtain ⟨e3x, e3r, e3s, h3⟩ := moveStep3_spec rnd p2
  set p3 := moveStep3 rnd p2 with hp3
  obtain ⟨e4y, e4r, e4s, h4⟩ := moveStep4_spec rnd p3
  set p4 := moveStep4 rnd p3 with hp4
  have hr4 : p4.1.radius = c.radius := by rw [e4r, e3r, e2r, e1r]
  have hs4 : p4.1.speed = c.speed := by rw [e4s, e3s, e2s, e1s]
  rcases h1 with h1 | ⟨h1, h1c⟩ <;>
    rcases h2 with h2 | ⟨h2, h2c⟩ <;>
      rcases h3 with h3 | ⟨h3, h3c⟩ <;>
        rcases h4 with h4 | ⟨h4, h4c⟩ <;>
          refine ⟨hr4, hs4, ⟨?_, ?_, ?_, ?_⟩, ?_, ?_, ?_, ?_, ?_, ?_, ?_, ?_⟩ <;>
            first
              | linarith
              | (intro hlt; linarith)

/-- C10 witness: the spawned circle (radius 0.03, speed 0.01) at its start
position, with every direction redraw returning 5, stays within the window
bounds after one step. -/
theorem C10_move_one_step_window_witness :
    (MoveOneStep demoCircle (fun _ => 5)).radius = demoCircle.radius ∧
    (MoveOneStep demoCircle (fun _ => 5)).speed = demoCircle.speed ∧
    InWindow (MoveOneStep demoCircle (fun _ => 5)) ∧
    demoCircle.x - demoCircle.speed ≤ (MoveOneStep demoCircle (fun _ => 5)).x ∧
    (MoveOneStep demoCircle (fun _ => 5)).x ≤ demoCircle.x + demoCircle.speed ∧
    demoCircle.y - demoCircle.speed ≤ (MoveOneStep demoCircle (fun _ => 5)).y ∧
    (MoveOneStep demoCircle (fun _ => 5)).y ≤ demoCircle.y + demoCircle.speed ∧
    ((MoveOneStep demoCircle (fun _ => 5)).x > demoCircle.x →
      demoCircle.x < 1 - demoCircle.radius) ∧
    ((MoveOneStep demoCircle (fun _ => 5)).x < demoCircle.x →
      demoCircle.x > -1 + demoCircle.radius) ∧
    ((MoveOneStep demoCircle (fun _ => 5)).y > demoCircle.y →
      demoCircle.y < 1 - demoCircle.radius) ∧
    ((MoveOneStep demoCircle (fun _ => 5)).y < demoCircle.y →
      demoCircle.y > -1 + demoCircle.radius) :=
  C10_move_one_step_window demoCircle (fun _ => 5)
    (by norm_num [demoCircle, mkCircle]) (by norm_num [demoCircle, mkCircle])
    rfl
    (by unfold InWindow demoCircle mkCircle; norm_num)

end BrickGame
